import Mathlib

/-!
Shallow embedding of `h2o-py/h2o/targetencoder.py` (class `TargetEncoder`).

The Python file is a thin client-side wrapper: `fit` evaluates the remote
expression `target.encoder.fit` and stores the resulting encoding map on the
instance; `transform` type-checks its `holdout_type` argument, asserts that the
stored map's column keys equal the configured target-encoding columns, and
builds the remote expression `target.encoder.transform` whose evaluation yields
the encoded frame.  Frames are opaque handles of an external engine, so a
`Frame` here is either an external handle or the transform expression applied
to a frame.  The remote backend itself (the aggregation, the fold-column check
and the blending computation) is not part of the wrapped Python source; those
pieces are modelled from the specification and say so in their doc comments.
-/

/-- A frame: either an opaque handle held by the external engine, or the lazy
result of the `target.encoder.transform` expression, carrying exactly the
arguments the wrapper passes to `ExprNode` in `TargetEncoder.transform`
(encoding-map keys, encoding-map frame keys, input frame, target columns,
holdout type, response column, fold column, blending flag, inflection point,
smoothing, noise, seed). -/
inductive Frame where
  | handle : Nat → Frame
  | transformed : List String → List String → Frame → List String → Option String →
      String → String → Bool → ℚ → ℚ → ℚ → Int → Frame
  deriving DecidableEq, Repr

/-- The noise argument recorded in a transform-expression frame, if any. -/
def Frame.noiseArg : Frame → Option ℚ
  | .transformed _ _ _ _ _ _ _ _ _ _ n _ => some n
  | .handle _ => none

/-- The input frame recorded in a transform-expression frame, if any. -/
def Frame.sourceArg : Frame → Option Frame
  | .transformed _ _ f _ _ _ _ _ _ _ _ _ => some f
  | .handle _ => none

/-- The encoding map returned by `target.encoder.fit`: `mapKeys` is
`map_keys['string']` (one key per target column), `framesKeys` the key names of
the per-column map frames (`x['key']['name']` over `frames`).  Modelled from
the spec: the per-level (count, responseSum) aggregates live in the remote
backend, so the map is represented by its keys together with the fit inputs
the aggregates are computed from (training frame, response column, fold
column). -/
structure EncodingMap where
  mapKeys : List String
  framesKeys : List String
  trainFrame : Frame
  responseColumn : String
  foldColumn : String
  deriving DecidableEq, Repr

/-- Modelled from the spec: evaluation of the remote `target.encoder.fit`
expression.  The Aggregator groups the training frame by level (and fold) for
each target column and produces one map frame per target column plus the
global prior; here it is a pure function of the wrapper's four arguments,
returning a map keyed by the target columns. -/
def targetEncoderFitEval (frame : Frame) (teColumns : List String)
    (y fold_column : String) : EncodingMap :=
  ⟨teColumns, teColumns.map (fun c => String.append "modified_" c), frame, y, fold_column⟩

/-- Errors surfaced by the wrapper and the modelled backend, named as in the
spec's error taxonomy: `typeCheckError` is the `assert_is_type` failure on
`holdout_type`; `staleEncodingMapError` covers `transform` called before `fit`
(missing `_encodingMap` attribute) and the failed assertion
`map_keys['string'] == self._teColumns`; `missingFoldColumnError` is the
modelled backend failure for kfold holdout without a fold column. -/
inductive TEError where
  | typeCheckError
  | staleEncodingMapError
  | missingFoldColumnError
  deriving DecidableEq, Repr

/-- The state of a `TargetEncoder` instance: the six fields set by `__init__`
plus the `_encodingMap` attribute, which does not exist (`none`) until `fit`
has run. -/
structure TargetEncoder where
  teColumns : List String
  responseColumnName : String
  foldColumnName : String
  blending : Bool
  inflectionPoint : ℚ
  smoothing : ℚ
  encodingMap : Option EncodingMap
  deriving DecidableEq, Repr

/-- `TargetEncoder.__init__(x, y, fold_column='', blending_avg=True,
inflection_point=3, smoothing=1)`: stores the six parameters; `_encodingMap`
is not set. -/
def TargetEncoder.init (x : List String) (y : String) (fold_column : String)
    (blending_avg : Bool) (inflection_point : ℚ) (smoothing : ℚ) : TargetEncoder :=
  ⟨x, y, fold_column, blending_avg, inflection_point, smoothing, none⟩

/-- `TargetEncoder.fit(frame)`: evaluates `target.encoder.fit` on the frame and
the configured columns, stores the result in `_encodingMap`, and returns it.
The new instance state is paired with the returned map. -/
def TargetEncoder.fit (enc : TargetEncoder) (frame : Frame) :
    TargetEncoder × EncodingMap :=
  let m := targetEncoderFitEval frame enc.teColumns enc.responseColumnName enc.foldColumnName
  ({ enc with encodingMap := some m }, m)

/-- The check `assert_is_type(holdout_type, "kfold", "loo", "none")`: the
argument must be exactly one of the three strings.  The Python default for the
parameter is `None`, modelled as `none`. -/
def validHoldout (holdout_type : Option String) : Bool :=
  holdout_type == some "kfold" || holdout_type == some "loo" || holdout_type == some "none"

/-- Modelled from the spec: the remote evaluation of the
`target.encoder.transform` expression fails with `MissingFoldColumnError` when
kfold holdout is requested but no fold column was supplied (the wrapper's
`fold_column` default is the empty string); otherwise it yields the encoded
frame. -/
def targetEncoderTransformEval (result : Frame) (holdout_type : Option String)
    (fold_column : String) : Except TEError Frame :=
  if holdout_type = some "kfold" ∧ fold_column = "" then
    Except.error TEError.missingFoldColumnError
  else
    Except.ok result

/-- `TargetEncoder.transform(frame, holdout_type=None, noise=-1, seed=-1)`,
statement by statement: first `assert_is_type(holdout_type, "kfold", "loo",
"none")`; then the access `self._encodingMap` (AttributeError before `fit`)
and the assertion `self._encodingMap.map_keys['string'] == self._teColumns`;
then the `target.encoder.transform` expression is built from the map keys, the
map frame keys, the input frame and the instance fields, and its remote
evaluation is the result.  No instance field is assigned, so the returned
state is the input state. -/
def TargetEncoder.transform (enc : TargetEncoder) (frame : Frame)
    (holdout_type : Option String) (noise : ℚ) (seed : Int) :
    TargetEncoder × Except TEError Frame :=
  if validHoldout holdout_type then
    match enc.encodingMap with
    | none => (enc, Except.error TEError.staleEncodingMapError)
    | some m =>
      if m.mapKeys = enc.teColumns then
        let encodingMapKeys := m.mapKeys
        let encodingMapFramesKeys := m.framesKeys
        (enc, targetEncoderTransformEval
          (Frame.transformed encodingMapKeys encodingMapFramesKeys frame enc.teColumns
            holdout_type enc.responseColumnName enc.foldColumnName enc.blending
            enc.inflectionPoint enc.smoothing noise seed)
          holdout_type enc.foldColumnName)
      else (enc, Except.error TEError.staleEncodingMapError)
  else (enc, Except.error TEError.typeCheckError)

/-- A per-group aggregate: row count and response sum.  Modelled from the
spec's Aggregate Stat (the aggregates are computed by the remote backend). -/
structure AggregateStat where
  count : ℕ
  responseSum : ℝ

/-- Blending parameters: inflection point and smoothing, as passed to the
backend by the wrapper. -/
structure BlendingParams where
  inflectionPoint : ℝ
  smoothing : ℝ

/-- Modelled from the spec: the Blender's logistic weight,
`lambda = 1 / (1 + exp(-(count - inflectionPoint) / smoothing))`. -/
noncomputable def lambdaWeight (count : ℕ) (p : BlendingParams) : ℝ :=
  1 / (1 + Real.exp (-((count : ℝ) - p.inflectionPoint) / p.smoothing))

/-- Modelled from the spec: the Blender's blended estimate.  With a non-empty
level, `lambda * posteriorMean + (1 - lambda) * priorMean`; with an empty level
the global prior mean alone. -/
noncomputable def blend (levelStat globalStat : AggregateStat)
    (p : BlendingParams) : ℝ :=
  if levelStat.count = 0 then
    globalStat.responseSum / (globalStat.count : ℝ)
  else
    lambdaWeight levelStat.count p * (levelStat.responseSum / (levelStat.count : ℝ)) +
      (1 - lambdaWeight levelStat.count p) * (globalStat.responseSum / (globalStat.count : ℝ))

/-- A sample instance as in the class docstring: target column "city", binary
response "resp", no fold column, blending on, inflection point 3, smoothing 1. -/
def encexample : TargetEncoder :=
  TargetEncoder.init ["city"] "resp" "" true 3 1

/-- The sample instance after a successful fit on an external frame. -/
def encfitted : TargetEncoder :=
  (encexample.fit (Frame.handle 0)).1

/-- C2: for every transform call, `holdout_type` must be exactly one of
"kfold", "loo" or "none"; any other value — including the omitted default
`None` — makes `transform` fail with the type-check error before the encoding
map is consulted or any remote expression is built, regardless of the rest of
the encoder state, and no output frame is produced. -/
theorem te_C2_holdout_type_validated (enc : TargetEncoder) (frame : Frame)
    (holdout_type : Option String) (noise : ℚ) (seed : Int)
    (h1 : holdout_type ≠ some "kfold") (h2 : holdout_type ≠ some "loo")
    (h3 : holdout_type ≠ some "none") :
    (enc.transform frame holdout_type noise seed).2 =
      Except.error TEError.typeCheckError := by
  have hv : validHoldout holdout_type = false := by
    simp [validHoldout, h1, h2, h3]
  simp [TargetEncoder.transform, hv]

/-- C2 witness: the concrete invalid value "bogus" on the fitted sample
encoder fails the type check. -/
theorem te_C2_witness :
    (some "bogus" : Option String) ≠ some "kfold" ∧
    (some "bogus" : Option String) ≠ some "loo" ∧
    (some "bogus" : Option String) ≠ some "none" ∧
    (encfitted.transform (Frame.handle 1) (some "bogus") 0 1).2 =
      Except.error TEError.typeCheckError :=
  ⟨by decide, by decide, by decide,
    te_C2_holdout_type_validated encfitted (Frame.handle 1) (some "bogus") 0 1
      (by decide) (by decide) (by decide)⟩

/-- C9: calling transform with `holdout_type` omitted (its Python default
`None`, modelled as `none`) always fails with the type-check error, for every
encoder state (fitted or not), frame, noise and seed. -/
theorem te_C9_default_holdout_fails (enc : TargetEncoder) (frame : Frame)
    (noise : ℚ) (seed : Int) :
    (enc.transform frame none noise seed).2 =
      Except.error TEError.typeCheckError := by
  simp [TargetEncoder.transform, validHoldout]

/-- C3: transform is pure — the instance state it returns is exactly the
input state (no field of the encoder is assigned), and its result is either an
error with no frame, or the new transform-expression frame in which the input
frame appears unchanged together with the instance fields and the call's
noise and seed. -/
theorem te_C3_transform_pure (enc : TargetEncoder) (frame : Frame)
    (holdout_type : Option String) (noise : ℚ) (seed : Int) :
    (enc.transform frame holdout_type noise seed).1 = enc ∧
    ((∃ e, (enc.transform frame holdout_type noise seed).2 = Except.error e) ∨
     (∃ ks fs, (enc.transform frame holdout_type noise seed).2 =
        Except.ok (Frame.transformed ks fs frame enc.teColumns holdout_type
          enc.responseColumnName enc.foldColumnName enc.blending enc.inflectionPoint
          enc.smoothing noise seed))) := by
  unfold TargetEncoder.transform
  by_cases hv : validHoldout holdout_type
  · cases hm : enc.encodingMap with
    | none => simp [hv]
    | some m =>
      by_cases hk : m.mapKeys = enc.teColumns
      · unfold targetEncoderTransformEval
        by_cases hf : holdout_type = some "kfold" ∧ enc.foldColumnName = ""
        · simp [hv, hk, hf, validHoldout]
        · simp [hv, hk, hf]
      · simp [hv, hk]
  · simp [hv]

/-- C4: fit is idempotent given identical inputs — it stores the map it
returns, and fitting the resulting instance again on the same frame returns
the same map and leaves the instance state identical. -/
theorem te_C4_fit_idempotent_and_stores (enc : TargetEncoder) (frame : Frame) :
    (enc.fit frame).1.encodingMap = some (enc.fit frame).2 ∧
    ((enc.fit frame).1.fit frame).2 = (enc.fit frame).2 ∧
    ((enc.fit frame).1.fit frame).1 = (enc.fit frame).1 :=
  ⟨rfl, rfl, rfl⟩

/-- C10: a second fit overwrites the stored encoding map — after fitting on
`f1` and then on `f2` the instance state is exactly the state of fitting on
`f2` alone, the stored map is the second map, and every subsequent transform
call behaves as if only the second fit had happened (the first map is
unreachable through the encoder). -/
theorem te_C10_fit_overwrites (enc : TargetEncoder) (f1 f2 : Frame) :
    (enc.fit f1).1.fit f2 = enc.fit f2 ∧
    ((enc.fit f1).1.fit f2).1.encodingMap = some (enc.fit f2).2 ∧
    (∀ (fr : Frame) (ht : Option String) (noise : ℚ) (seed : Int),
      ((enc.fit f1).1.fit f2).1.transform fr ht noise seed =
        (enc.fit f2).1.transform fr ht noise seed) :=
  ⟨rfl, rfl, fun _ _ _ _ => rfl⟩

/-- Transform never assigns an instance field: the state it returns is the
input state, in every branch. -/
theorem transform_fst_eq (enc : TargetEncoder) (frame : Frame)
    (holdout_type : Option String) (noise : ℚ) (seed : Int) :
    (enc.transform frame holdout_type noise seed).1 = enc := by
  unfold TargetEncoder.transform
  by_cases hv : validHoldout holdout_type
  · cases hm : enc.encodingMap with
    | none => simp [hv]
    | some m =>
      by_cases hk : m.mapKeys = enc.teColumns
      · simp [hv, hk]
      · simp [hv, hk]
  · simp [hv]

/-- C1 counterexample: a transform call made before any fit call that does not
fail with the stale-encoding-map error — with an invalid `holdout_type`
("bogus"), the type check on `holdout_type` fires first, so the unfitted
sample encoder fails with the type-check error instead. -/
theorem te_C1_cex :
    encexample.encodingMap = none ∧
    (encexample.transform (Frame.handle 1) (some "bogus") 0 1).2 =
      Except.error TEError.typeCheckError ∧
    TEError.typeCheckError ≠ TEError.staleEncodingMapError :=
  ⟨rfl, rfl, by decide⟩

/-- C1 (amended): for every transform call whose `holdout_type` passes the
type check, if the call is made before any fit call, or the stored map's
column keys do not equal the configured target-encoding columns, transform
fails with the stale-encoding-map error and produces no output frame. -/
theorem te_C1_stale_map_rejected (enc : TargetEncoder) (frame : Frame)
    (holdout_type : Option String) (noise : ℚ) (seed : Int)
    (hv : validHoldout holdout_type = true)
    (hstale : enc.encodingMap = none ∨
      ∃ m, enc.encodingMap = some m ∧ m.mapKeys ≠ enc.teColumns) :
    (enc.transform frame holdout_type noise seed).2 =
      Except.error TEError.staleEncodingMapError := by
  unfold TargetEncoder.transform
  rcases hstale with h | ⟨m, hm, hk⟩
  · simp [hv, h]
  · simp [hv, hm, hk]

/-- C1 witness: the unfitted sample encoder with the valid holdout "none"
fails with the stale-encoding-map error. -/
theorem te_C1_witness :
    validHoldout (some "none") = true ∧
    (encexample.encodingMap = none ∨
      ∃ m, encexample.encodingMap = some m ∧ m.mapKeys ≠ encexample.teColumns) ∧
    (encexample.transform (Frame.handle 1) (some "none") 0 1).2 =
      Except.error TEError.staleEncodingMapError :=
  ⟨by decide, Or.inl rfl,
    te_C1_stale_map_rejected encexample (Frame.handle 1) (some "none") 0 1
      (by decide) (Or.inl rfl)⟩

/-- C7: a transform call with holdout "kfold" on a fitted encoder whose fold
column is empty (none was supplied at construction, and transform takes no
fold-column argument) fails with the missing-fold-column error and produces no
output. -/
theorem te_C7_kfold_requires_fold_column (enc : TargetEncoder) (frame : Frame)
    (noise : ℚ) (seed : Int) (m : EncodingMap)
    (hm : enc.encodingMap = some m) (hk : m.mapKeys = enc.teColumns)
    (hfold : enc.foldColumnName = "") :
    (enc.transform frame (some "kfold") noise seed).2 =
      Except.error TEError.missingFoldColumnError := by
  unfold TargetEncoder.transform targetEncoderTransformEval
  simp [hm, hk, hfold, validHoldout]

/-- C7 witness: the fitted sample encoder (fold column "") with holdout
"kfold". -/
theorem te_C7_witness :
    encfitted.encodingMap =
      some (targetEncoderFitEval (Frame.handle 0) ["city"] "resp" "") ∧
    (targetEncoderFitEval (Frame.handle 0) ["city"] "resp" "").mapKeys =
      encfitted.teColumns ∧
    encfitted.foldColumnName = "" ∧
    (encfitted.transform (Frame.handle 1) (some "kfold") 0 1).2 =
      Except.error TEError.missingFoldColumnError :=
  ⟨rfl, rfl, rfl,
    te_C7_kfold_requires_fold_column encfitted (Frame.handle 1) 0 1
      (targetEncoderFitEval (Frame.handle 0) ["city"] "resp" "") rfl rfl rfl⟩

/-- C5 counterexample: the noise amount is not constrained to be ≥ 0 — the
parameter's default value is −1 (a sentinel for a backend-chosen default of
0.01 × range of the response), and a transform call with noise = −1 on the
fitted sample encoder is accepted and passes −1 through to the encoding
expression unchanged. -/
theorem te_C5_cex :
    (encfitted.transform (Frame.handle 1) (some "none") (-1) (-1)).2 =
      Except.ok (Frame.transformed ["city"] ["modified_city"] (Frame.handle 1)
        ["city"] (some "none") "resp" "" true 3 1 (-1) (-1)) ∧
    ¬ ((0:ℚ) ≤ -1) :=
  ⟨rfl, by norm_num⟩

/-- C5 (amended): transform performs no check on the noise amount (whose
default is the sentinel −1): whenever a call succeeds, the produced expression
carries the given noise unchanged, and replacing the noise by any other value
— negative values included — the call still succeeds with that value carried
unchanged.  The noise injection itself happens in the remote backend. -/
theorem te_C5_noise_passthrough (enc : TargetEncoder) (frame : Frame)
    (holdout_type : Option String) (noise noise2 : ℚ) (seed : Int) (f : Frame)
    (h : (enc.transform frame holdout_type noise seed).2 = Except.ok f) :
    f.noiseArg = some noise ∧
    ∃ f2, (enc.transform frame holdout_type noise2 seed).2 = Except.ok f2 ∧
      f2.noiseArg = some noise2 := by
  unfold TargetEncoder.transform targetEncoderTransformEval at h ⊢
  by_cases hv : validHoldout holdout_type
  · cases hm : enc.encodingMap with
    | none => rw [hm] at h; simp [hv] at h
    | some m =>
      rw [hm] at h
      by_cases hk : m.mapKeys = enc.teColumns
      · by_cases hf : holdout_type = some "kfold" ∧ enc.foldColumnName = ""
        · simp [hv, hk, hf, validHoldout] at h
        · simp [hv, hk, hf] at h ⊢
          subst h
          exact ⟨rfl, rfl⟩
      · simp [hv, hk] at h
  · simp [hv] at h

/-- C5 witness: a call with noise 5 succeeds carrying 5; by the theorem the
same call with the default −1 also succeeds, carrying −1. -/
theorem te_C5_witness :
    (encfitted.transform (Frame.handle 1) (some "none") 5 1).2 =
      Except.ok (Frame.transformed ["city"] ["modified_city"] (Frame.handle 1)
        ["city"] (some "none") "resp" "" true 3 1 5 1) ∧
    (Frame.transformed ["city"] ["modified_city"] (Frame.handle 1)
        ["city"] (some "none") "resp" "" true 3 1 5 1).noiseArg = some 5 ∧
    ∃ f2, (encfitted.transform (Frame.handle 1) (some "none") (-1) 1).2 =
        Except.ok f2 ∧ f2.noiseArg = some (-1) :=
  ⟨rfl,
    (te_C5_noise_passthrough encfitted (Frame.handle 1) (some "none") 5 (-1) 1
      (Frame.transformed ["city"] ["modified_city"] (Frame.handle 1)
        ["city"] (some "none") "resp" "" true 3 1 5 1) rfl).1,
    (te_C5_noise_passthrough encfitted (Frame.handle 1) (some "none") 5 (-1) 1
      (Frame.transformed ["city"] ["modified_city"] (Frame.handle 1)
        ["city"] (some "none") "resp" "" true 3 1 5 1) rfl).2⟩

/-- C6 counterexample: the constructor performs no positivity check — an
encoder constructed with inflection_point = 0 and smoothing = −2 is accepted
and stores those values, refuting "both floats strictly greater than zero". -/
theorem te_C6_cex :
    (TargetEncoder.init ["city"] "resp" "" true 0 (-2)).inflectionPoint = 0 ∧
    (TargetEncoder.init ["city"] "resp" "" true 0 (-2)).smoothing = -2 ∧
    ¬ ((0:ℚ) < 0 ∧ (0:ℚ) < -2) :=
  ⟨rfl, rfl, by norm_num⟩

/-- C6 (amended): the blending parameters inflection point and smoothing are
fixed at construction (stored exactly as passed, with no positivity check
enforced) and are never modified afterwards by fit or transform. -/
theorem te_C6_blending_params_fixed (x : List String) (y fold_column : String)
    (blending_avg : Bool) (inflection_point sm : ℚ) (enc : TargetEncoder)
    (f fr : Frame) (ht : Option String) (noise : ℚ) (seed : Int) :
    (TargetEncoder.init x y fold_column blending_avg inflection_point sm).inflectionPoint
        = inflection_point ∧
    (TargetEncoder.init x y fold_column blending_avg inflection_point sm).smoothing = sm ∧
    (enc.fit f).1.inflectionPoint = enc.inflectionPoint ∧
    (enc.fit f).1.smoothing = enc.smoothing ∧
    (enc.transform fr ht noise seed).1.inflectionPoint = enc.inflectionPoint ∧
    (enc.transform fr ht noise seed).1.smoothing = enc.smoothing := by
  refine ⟨rfl, rfl, rfl, rfl, ?_, ?_⟩ <;>
    rw [transform_fst_eq]

/-- C8: with blending enabled and a level count > 0, the blended encoding is
lambda * (levelSum/levelCount) + (1 − lambda) * (globalSum/globalCount) with
lambda = 1/(1+exp(−(count − inflectionPoint)/smoothing)); with count = 0 it is
the global prior mean. -/
theorem te_C8_blend_formula (ls gs : AggregateStat) (p : BlendingParams) :
    (0 < ls.count →
      blend ls gs p =
        1 / (1 + Real.exp (-((ls.count : ℝ) - p.inflectionPoint) / p.smoothing)) *
            (ls.responseSum / (ls.count : ℝ)) +
          (1 - 1 / (1 + Real.exp (-((ls.count : ℝ) - p.inflectionPoint) / p.smoothing))) *
            (gs.responseSum / (gs.count : ℝ))) ∧
    (ls.count = 0 → blend ls gs p = gs.responseSum / (gs.count : ℝ)) := by
  constructor
  · intro h
    unfold blend lambdaWeight
    rw [if_neg (Nat.pos_iff_ne_zero.mp h)]
  · intro h
    unfold blend
    rw [if_pos h]

/-- C8 witness: the spec's worked example — level count 2 with sum 1, global
count 3 with sum 2, inflection point 3, smoothing 1 — and an empty level. -/
theorem te_C8_witness :
    (0 < (AggregateStat.mk 2 1).count ∧
      blend ⟨2, 1⟩ ⟨3, 2⟩ ⟨3, 1⟩ =
        1 / (1 + Real.exp (-(((2:ℕ) : ℝ) - 3) / 1)) * ((1:ℝ) / ((2:ℕ) : ℝ)) +
          (1 - 1 / (1 + Real.exp (-(((2:ℕ) : ℝ) - 3) / 1))) * ((2:ℝ) / ((3:ℕ) : ℝ))) ∧
    ((AggregateStat.mk 0 0).count = 0 ∧
      blend ⟨0, 0⟩ ⟨3, 2⟩ ⟨3, 1⟩ = (2:ℝ) / ((3:ℕ) : ℝ)) :=
  ⟨⟨by decide, (te_C8_blend_formula ⟨2, 1⟩ ⟨3, 2⟩ ⟨3, 1⟩).1 (by decide)⟩,
    ⟨rfl, (te_C8_blend_formula ⟨0, 0⟩ ⟨3, 2⟩ ⟨3, 1⟩).2 rfl⟩⟩
